import Mathlib

/-!
# Verification of the lifecard exchange / coin-ledger subsystem

A shallow embedding of the exchange subsystem of `life-card-api`
(`src/services/exchange_service.rs`, `src/models/exchange.rs`,
`src/models/user.rs`) into Lean 4, together with proofs and refutations of
the specification's testable properties.

Modelling conventions:

* Database ids (`Uuid`) are modelled as `Nat`.
* Timestamps (`DateTime<Utc>`) are modelled as `Int`; the current time
  (`Utc::now()` / `CURRENT_TIMESTAMP`) is passed as an explicit `now`
  parameter.
* `i32` / `i64` quantities are modelled as `Int`.  None of the verified
  claims concerns wrap-around behaviour, and the amounts involved are far
  from the `i32` range, so no modular reduction is applied.
* Rust's `i32` division truncates toward zero, which is `Int.tdiv` in Lean
  (`/` on `Int` in Lean is Euclidean division and differs on negative
  operands).
* The database is a `Db` record of lists, one per table.  Every SQL
  statement of the source is translated to a function on `Db`:
  `UPDATE ... WHERE` is a `List.map` guarded by the `WHERE` condition,
  `INSERT` is an append, `SELECT ... fetch_one` is a `List.find?` whose
  `none` case is the sqlx `RowNotFound` error (`AppError.database`),
  `SELECT ... fetch_optional` is a plain `List.find?`.
* The service functions run their statements directly against the pool
  (there is no surrounding SQL transaction in the source), so each
  statement commits individually; a service call that fails midway leaves
  the mutations of its earlier statements in place.  Every operation
  therefore returns the (possibly mutated) database together with its
  `Except` result.
-/

namespace LifeCard

/-- Coin transaction reasons (`models/user.rs`, enum `CoinReason`). -/
inductive CoinReason
  | cardCreated
  | cardExchanged
  | dailyLogin
  | exchangePurchase
  | exchangeRefund
deriving DecidableEq, Repr

/-- Exchange request status (`models/exchange.rs`, enum `ExchangeStatus`). -/
inductive ExchangeStatus
  | pending
  | accepted
  | rejected
  | cancelled
  | expired
deriving DecidableEq, Repr

/-- `ExchangeStatus::to_db_str` / `Display` (`models/exchange.rs`). -/
def ExchangeStatus.to_db_str : ExchangeStatus → String
  | .pending => "pending"
  | .accepted => "accepted"
  | .rejected => "rejected"
  | .cancelled => "cancelled"
  | .expired => "expired"

/-- `ExchangeStatus::is_terminal` (`models/exchange.rs`). -/
def ExchangeStatus.is_terminal : ExchangeStatus → Bool
  | .accepted => true
  | .rejected => true
  | .cancelled => true
  | .expired => true
  | .pending => false

/-- `ExchangeStatus::can_accept` (`models/exchange.rs`). -/
def ExchangeStatus.can_accept (s : ExchangeStatus) : Bool :=
  s == .pending

/-- `ExchangeStatus::can_reject` (`models/exchange.rs`). -/
def ExchangeStatus.can_reject (s : ExchangeStatus) : Bool :=
  s == .pending

/-- `ExchangeStatus.can_cancel` (`models/exchange.rs`). -/
def ExchangeStatus.can_cancel (s : ExchangeStatus) : Bool :=
  s == .pending

/-- A row of the `users` table (the columns the exchange subsystem touches:
`id`, `coin_balance`, `exchange_count`). -/
structure UserRow where
  id : Nat
  coin_balance : Int
  exchange_count : Int
deriving DecidableEq, Repr

/-- A row of the `cards` table (the columns the exchange subsystem reads:
`id`, `creator_id`, `base_price`, `like_count`, `exchange_count`,
`is_deleted`). -/
structure CardRow where
  id : Nat
  creator_id : Nat
  base_price : Int
  like_count : Int
  exchange_count : Int
  is_deleted : Bool
deriving DecidableEq, Repr

/-- A row of the `exchange_requests` table
(`models/exchange.rs`, struct `ExchangeRequestRow`). -/
structure ExchangeRequestRow where
  id : Nat
  requester_id : Nat
  card_id : Nat
  owner_id : Nat
  coin_amount : Int
  status : ExchangeStatus
  expires_at : Int
  created_at : Int
  updated_at : Int
deriving DecidableEq, Repr

/-- A row of the `coin_transactions` table (the columns written by the
exchange service; the generated `id` is irrelevant to the claims and
omitted). -/
structure CoinTransactionRow where
  user_id : Nat
  amount : Int
  reason : CoinReason
  reference_id : Option Nat
  balance_after : Int
deriving DecidableEq, Repr

/-- A row of the `card_collections` table (generated `id` and
`collected_at` omitted; the uniqueness key is `(user_id, card_id)`). -/
structure CollectionRow where
  user_id : Nat
  card_id : Nat
deriving DecidableEq, Repr

/-- A row of the `exchange_records` table
(`models/exchange.rs`, struct `ExchangeRecordRow`; generated `id` omitted). -/
structure ExchangeRecordRow where
  exchange_request_id : Nat
  card_id : Nat
  from_user_id : Nat
  to_user_id : Nat
  coin_amount : Int
  completed_at : Int
deriving DecidableEq, Repr

/-- The mutable store shared by all operations: one list per table. -/
structure Db where
  users : List UserRow
  cards : List CardRow
  exchange_requests : List ExchangeRequestRow
  coin_transactions : List CoinTransactionRow
  card_collections : List CollectionRow
  exchange_records : List ExchangeRecordRow
deriving DecidableEq, Repr

/-- The error variants of `error.rs` that the exchange service produces.
`database` stands for `AppError::Database(sqlx::Error)`, raised in this
subsystem only by `fetch_one` finding no row. -/
inductive AppError
  | notFound (msg : String)
  | businessLogic (msg : String)
  | database
deriving DecidableEq, Repr

instance {α : Type} [DecidableEq α] : DecidableEq (Except AppError α) := fun a b =>
  match a, b with
  | .ok x, .ok y =>
      if h : x = y then .isTrue (by rw [h])
      else .isFalse (by intro hc; cases hc; exact h rfl)
  | .error x, .error y =>
      if h : x = y then .isTrue (by rw [h])
      else .isFalse (by intro hc; cases hc; exact h rfl)
  | .ok _, .error _ => .isFalse (by intro hc; cases hc)
  | .error _, .ok _ => .isFalse (by intro hc; cases hc)

/-- `true` exactly on `Except.ok`. -/
def isOkE {α : Type} : Except AppError α → Bool
  | .ok _ => true
  | .error _ => false

/-- The configuration field the exchange service reads
(`config.rs`, `exchange_expiration_hours`).  The time unit of the
expiration window is immaterial to the claims, so `expires_at` is computed
as `now + exchange_expiration_hours` directly. -/
structure Config where
  exchange_expiration_hours : Int
deriving DecidableEq, Repr

/-- `ExchangePriceInfo` (`models/exchange.rs`). -/
structure ExchangePriceInfo where
  card_id : Nat
  base_price : Int
  popularity_bonus : Int
  final_price : Int
deriving DecidableEq, Repr

/-- `ExchangePriceInfo::new` (`models/exchange.rs`, lines 326-337):
`popularity_bonus = (like_count / 10) + (exchange_count * 2)` with Rust
`i32` division (truncation toward zero, `Int.tdiv`), and
`final_price = base_price + popularity_bonus`. -/
def ExchangePriceInfo.new (card_id : Nat)
    (base_price like_count exchange_count : Int) : ExchangePriceInfo :=
  let popularity_bonus := Int.tdiv like_count 10 + exchange_count * 2
  let final_price := base_price + popularity_bonus
  { card_id := card_id
    base_price := base_price
    popularity_bonus := popularity_bonus
    final_price := final_price }

/-- `ExchangeResult` (`models/exchange.rs`). -/
structure ExchangeResult where
  exchange_id : Nat
  card_id : Nat
  requester_new_balance : Int
  owner_new_balance : Int
deriving DecidableEq, Repr

/-- `ExpirationProcessingResult` (`models/exchange.rs`). -/
structure ExpirationProcessingResult where
  total_found : Nat
  processed_count : Nat
  failed_count : Nat
  total_refunded_amount : Int
deriving DecidableEq, Repr

/-! ## SQL statement embeddings -/

/-- `SELECT * FROM users WHERE id = $1` (first row). -/
def findUser (db : Db) (uid : Nat) : Option UserRow :=
  db.users.find? (fun u => u.id == uid)

/-- `SELECT coin_balance FROM users WHERE id = $1` (`fetch_one` succeeds
iff the row exists). -/
def fetchBalance (db : Db) (uid : Nat) : Option Int :=
  (findUser db uid).map (fun u => u.coin_balance)

/-- `SELECT * FROM cards WHERE id = $1 AND is_deleted = false`. -/
def findCardLive (db : Db) (cid : Nat) : Option CardRow :=
  db.cards.find? (fun c => c.id == cid && !c.is_deleted)

/-- `SELECT * FROM exchange_requests WHERE id = $1`. -/
def findRequest (db : Db) (exid : Nat) : Option ExchangeRequestRow :=
  db.exchange_requests.find? (fun r => r.id == exid)

/-- `UPDATE users SET coin_balance = coin_balance + delta WHERE id = uid`.
(In the source the debit in `create_exchange_request` is written with a
minus sign; it is embedded here as adding a negative `delta`.) -/
def updateUserBalance (db : Db) (uid : Nat) (delta : Int) : Db :=
  { db with
      users := db.users.map (fun u =>
        if u.id == uid then { u with coin_balance := u.coin_balance + delta } else u) }

/-- `UPDATE users SET coin_balance = coin_balance + delta WHERE id = uid
RETURNING coin_balance` followed by `fetch_one`: the returned balance is
`none` (sqlx `RowNotFound`) when no row matched. -/
def updateBalanceReturning (db : Db) (uid : Nat) (delta : Int) :
    Db × Option Int :=
  let db2 := updateUserBalance db uid delta
  (db2, fetchBalance db2 uid)

/-- `INSERT INTO coin_transactions ...`. -/
def appendTxn (db : Db) (t : CoinTransactionRow) : Db :=
  { db with coin_transactions := db.coin_transactions ++ [t] }

/-- `UPDATE exchange_requests SET status = st, updated_at =
CURRENT_TIMESTAMP WHERE id = exid`.  Note the source statement conditions
on `id` only — not on the current status. -/
def setRequestStatus (db : Db) (exid : Nat) (st : ExchangeStatus) (now : Int) : Db :=
  { db with
      exchange_requests := db.exchange_requests.map (fun r =>
        if r.id == exid then { r with status := st, updated_at := now } else r) }

/-- `INSERT INTO card_collections ... ON CONFLICT (user_id, card_id) DO
NOTHING`. -/
def grantCollection (db : Db) (uid cid : Nat) : Db :=
  if db.card_collections.any (fun c => c.user_id == uid && c.card_id == cid) then db
  else { db with card_collections := db.card_collections ++ [⟨uid, cid⟩] }

/-- `INSERT INTO exchange_records ...`. -/
def appendRecord (db : Db) (r : ExchangeRecordRow) : Db :=
  { db with exchange_records := db.exchange_records ++ [r] }

/-- `UPDATE cards SET exchange_count = exchange_count + 1 WHERE id = cid`. -/
def bumpCardExchangeCount (db : Db) (cid : Nat) : Db :=
  { db with
      cards := db.cards.map (fun c =>
        if c.id == cid then { c with exchange_count := c.exchange_count + 1 } else c) }

/-- `UPDATE users SET exchange_count = exchange_count + 1 WHERE id = uid`. -/
def bumpUserExchangeCount (db : Db) (uid : Nat) : Db :=
  { db with
      users := db.users.map (fun u =>
        if u.id == uid then { u with exchange_count := u.exchange_count + 1 } else u) }

/-- Number of `card_collections` rows for `(uid, cid)`. -/
def countCollection (db : Db) (uid cid : Nat) : Nat :=
  (db.card_collections.filter (fun c => c.user_id == uid && c.card_id == cid)).length

/-- `ExchangeRequestRow::is_expired` (`models/exchange.rs`):
`Utc::now() > expires_at`, with `now` explicit. -/
def ExchangeRequestRow.is_expired (r : ExchangeRequestRow) (now : Int) : Bool :=
  now > r.expires_at

/-! ## Service operations (`services/exchange_service.rs`) -/

/-- `ExchangeService::calculate_exchange_price` (lines 178-193): fetch the
live card, compute `ExchangePriceInfo::new` from its current counters. -/
def calculate_exchange_price (db : Db) (card_id : Nat) :
    Except AppError ExchangePriceInfo :=
  match findCardLive db card_id with
  | none => .error (.notFound "Card not found")
  | some card_row =>
      .ok (ExchangePriceInfo.new card_id card_row.base_price
        card_row.like_count card_row.exchange_count)

/-- `ExchangeService::create_exchange_request` (lines 40-174), statement by
statement.  `exchange_id` stands for the freshly drawn `Uuid::new_v4()`.
The trailing summary fetches of the source (step 10) are read-only and
infallible (`fetch_optional`), so they are not part of the state; the
function returns the inserted `exchange_requests` row. -/
def create_exchange_request (cfg : Config) (db : Db) (now : Int)
    (requester_id card_id exchange_id : Nat) :
    Db × Except AppError ExchangeRequestRow :=
  -- 1. fetch the card
  match findCardLive db card_id with
  | none => (db, .error (.notFound "Card not found"))
  | some card_row =>
      let owner_id := card_row.creator_id
      -- 2. requester must not be the owner
      if requester_id == owner_id then
        (db, .error (.businessLogic "Cannot exchange your own card"))
      else
        -- 3. no existing pending request by this requester for this card
        let existing_request :=
          (db.exchange_requests.filter (fun r =>
            r.requester_id == requester_id && r.card_id == card_id &&
              r.status == .pending)).length
        if existing_request > 0 then
          (db, .error (.businessLogic
            "You already have a pending exchange request for this card"))
        else
          -- 4. requester must not have collected the card already
          let already_collected := countCollection db requester_id card_id
          if already_collected > 0 then
            (db, .error (.businessLogic "You have already collected this card"))
          else
            -- 5. price from the card's live counters
            match calculate_exchange_price db card_id with
            | .error e => (db, .error e)
            | .ok exchange_price =>
                let coin_amount := exchange_price.final_price
                -- 6. balance check
                match fetchBalance db requester_id with
                | none => (db, .error .database)
                | some requester_balance =>
                    if requester_balance < coin_amount then
                      (db, .error (.businessLogic
                        ("Insufficient coin balance. Required: " ++
                          toString coin_amount ++ ", Available: " ++
                          toString requester_balance)))
                    else
                      -- 7. expiration time
                      let expires_at := now + cfg.exchange_expiration_hours
                      -- 8. debit the requester and log the transaction
                      match updateBalanceReturning db requester_id (-coin_amount) with
                      | (db1, none) => (db1, .error .database)
                      | (db1, some new_balance) =>
                          let db2 := appendTxn db1
                            { user_id := requester_id
                              amount := -coin_amount
                              reason := .exchangePurchase
                              reference_id := some exchange_id
                              balance_after := new_balance }
                          -- 9. insert the request row
                          let row : ExchangeRequestRow :=
                            { id := exchange_id
                              requester_id := requester_id
                              card_id := card_id
                              owner_id := owner_id
                              coin_amount := coin_amount
                              status := .pending
                              expires_at := expires_at
                              created_at := now
                              updated_at := now }
                          let db3 := { db2 with
                            exchange_requests := db2.exchange_requests ++ [row] }
                          (db3, .ok row)

/-- `ExchangeService::accept_exchange` (lines 207-356), statement by
statement. -/
def accept_exchange (db : Db) (now : Int) (exchange_id owner_id : Nat) :
    Db × Except AppError ExchangeResult :=
  -- 1. fetch the request
  match findRequest db exchange_id with
  | none => (db, .error (.notFound "Exchange request not found"))
  | some exchange_row =>
      -- 2. caller must be the card owner
      if exchange_row.owner_id != owner_id then
        (db, .error (.businessLogic
          "Only the card owner can accept this exchange request"))
      -- 3. status must allow accepting
      else if !exchange_row.status.can_accept then
        (db, .error (.businessLogic
          ("Cannot accept exchange request with status: " ++
            exchange_row.status.to_db_str)))
      -- 4. lazy expiry: flip the status to expired and fail
      else if exchange_row.is_expired now then
        let db1 := setRequestStatus db exchange_id .expired now
        (db1, .error (.businessLogic "Exchange request has expired"))
      else
        -- 5. credit the owner and log the transaction
        match updateBalanceReturning db owner_id exchange_row.coin_amount with
        | (db1, none) => (db1, .error .database)
        | (db1, some owner_new_balance) =>
            let db2 := appendTxn db1
              { user_id := owner_id
                amount := exchange_row.coin_amount
                reason := .cardExchanged
                reference_id := some exchange_id
                balance_after := owner_new_balance }
            -- 6. grant the card to the requester (idempotent insert)
            let db3 := grantCollection db2 exchange_row.requester_id exchange_row.card_id
            -- 7. set status to accepted
            let db4 := setRequestStatus db3 exchange_id .accepted now
            -- 8. insert the exchange record
            let db5 := appendRecord db4
              { exchange_request_id := exchange_id
                card_id := exchange_row.card_id
                from_user_id := owner_id
                to_user_id := exchange_row.requester_id
                coin_amount := exchange_row.coin_amount
                completed_at := now }
            -- 9. bump the card's exchange counter
            let db6 := bumpCardExchangeCount db5 exchange_row.card_id
            -- 10. bump both users' exchange counters
            let db7 := bumpUserExchangeCount db6 owner_id
            let db8 := bumpUserExchangeCount db7 exchange_row.requester_id
            -- final read of the requester's balance
            match fetchBalance db8 exchange_row.requester_id with
            | none => (db8, .error .database)
            | some requester_balance =>
                (db8, .ok
                  { exchange_id := exchange_id
                    card_id := exchange_row.card_id
                    requester_new_balance := requester_balance
                    owner_new_balance := owner_new_balance })

/-- The read-and-validate phase of `ExchangeService::reject_exchange`
(lines 371-393): fetch the request, check the caller is the owner, check
the status allows rejecting.  Read-only. -/
def reject_validate (db : Db) (exchange_id owner_id : Nat) :
    Except AppError ExchangeRequestRow :=
  match findRequest db exchange_id with
  | none => .error (.notFound "Exchange request not found")
  | some exchange_row =>
      if exchange_row.owner_id != owner_id then
        .error (.businessLogic
          "Only the card owner can reject this exchange request")
      else if !exchange_row.status.can_reject then
        .error (.businessLogic
          ("Cannot reject exchange request with status: " ++
            exchange_row.status.to_db_str))
      else
        .ok exchange_row

/-- The write phase of `ExchangeService::reject_exchange` (lines 395-431):
refund the requester, log the refund transaction, set the status to
rejected.  None of these statements re-checks the request's status. -/
def reject_commit (db : Db) (now : Int) (exchange_id : Nat)
    (exchange_row : ExchangeRequestRow) : Db × Except AppError Unit :=
  match updateBalanceReturning db exchange_row.requester_id exchange_row.coin_amount with
  | (db1, none) => (db1, .error .database)
  | (db1, some new_balance) =>
      let db2 := appendTxn db1
        { user_id := exchange_row.requester_id
          amount := exchange_row.coin_amount
          reason := .exchangeRefund
          reference_id := some exchange_id
          balance_after := new_balance }
      let db3 := setRequestStatus db2 exchange_id .rejected now
      (db3, .ok ())

/-- `ExchangeService::reject_exchange` (lines 366-434): the validate phase
followed by the commit phase. -/
def reject_exchange (db : Db) (now : Int) (exchange_id owner_id : Nat) :
    Db × Except AppError Unit :=
  match reject_validate db exchange_id owner_id with
  | .error e => (db, .error e)
  | .ok exchange_row => reject_commit db now exchange_id exchange_row

/-- The read-and-validate phase of `ExchangeService::cancel_exchange`
(lines 449-471): fetch the request, check the caller is the requester,
check the status allows cancelling.  Read-only. -/
def cancel_validate (db : Db) (exchange_id requester_id : Nat) :
    Except AppError ExchangeRequestRow :=
  match findRequest db exchange_id with
  | none => .error (.notFound "Exchange request not found")
  | some exchange_row =>
      if exchange_row.requester_id != requester_id then
        .error (.businessLogic
          "Only the requester can cancel this exchange request")
      else if !exchange_row.status.can_cancel then
        .error (.businessLogic
          ("Cannot cancel exchange request with status: " ++
            exchange_row.status.to_db_str))
      else
        .ok exchange_row

/-- The write phase of `ExchangeService::cancel_exchange` (lines 473-509):
refund the requester (the source binds the caller's `requester_id`, equal
to the row's requester after validation), log the refund, set the status to
cancelled.  None of these statements re-checks the request's status. -/
def cancel_commit (db : Db) (now : Int) (exchange_id : Nat)
    (exchange_row : ExchangeRequestRow) : Db × Except AppError Unit :=
  match updateBalanceReturning db exchange_row.requester_id exchange_row.coin_amount with
  | (db1, none) => (db1, .error .database)
  | (db1, some new_balance) =>
      let db2 := appendTxn db1
        { user_id := exchange_row.requester_id
          amount := exchange_row.coin_amount
          reason := .exchangeRefund
          reference_id := some exchange_id
          balance_after := new_balance }
      let db3 := setRequestStatus db2 exchange_id .cancelled now
      (db3, .ok ())

/-- `ExchangeService::cancel_exchange` (lines 444-512): the validate phase
followed by the commit phase. -/
def cancel_exchange (db : Db) (now : Int) (exchange_id requester_id : Nat) :
    Db × Except AppError Unit :=
  match cancel_validate db exchange_id requester_id with
  | .error e => (db, .error e)
  | .ok exchange_row => cancel_commit db now exchange_id exchange_row

/-- `ExchangeService::expire_single_request` (lines 576-616): refund the
requester, log the refund transaction, set the status to expired.  The
helper itself performs no status check; its callers select the rows. -/
def expire_single_request (db : Db) (now : Int)
    (request : ExchangeRequestRow) : Db × Except AppError Int :=
  match updateBalanceReturning db request.requester_id request.coin_amount with
  | (db1, none) => (db1, .error .database)
  | (db1, some new_balance) =>
      let db2 := appendTxn db1
        { user_id := request.requester_id
          amount := request.coin_amount
          reason := .exchangeRefund
          reference_id := some request.id
          balance_after := new_balance }
      let db3 := setRequestStatus db2 request.id .expired now
      (db3, .ok request.coin_amount)

/-- The per-request loop of `ExchangeService::process_expired_requests`
(lines 543-564): each failure is caught and counted, the batch continues. -/
def processExpiredLoop (now : Int) :
    List ExchangeRequestRow → Db → Nat → Nat → Int → Db × Nat × Nat × Int
  | [], db, processed, failed, refunded => (db, processed, failed, refunded)
  | request :: rest, db, processed, failed, refunded =>
      match expire_single_request db now request with
      | (db1, .ok amount) =>
          processExpiredLoop now rest db1 (processed + 1) failed (refunded + amount)
      | (db1, .error _) =>
          processExpiredLoop now rest db1 processed (failed + 1) refunded

/-- `ExchangeService::process_expired_requests` (lines 522-572): select the
pending requests with `expires_at < now` (the `FOR UPDATE SKIP LOCKED`
clause is vacuous in this sequential model), expire each one, count
successes and failures, sum the refunded amounts. -/
def process_expired_requests (db : Db) (now : Int) :
    Db × ExpirationProcessingResult :=
  let expired_requests := db.exchange_requests.filter (fun r =>
    r.status == .pending && r.expires_at < now)
  let total_found := expired_requests.length
  match processExpiredLoop now expired_requests db 0 0 0 with
  | (db1, processed_count, failed_count, refunded_amount) =>
      (db1,
        { total_found := total_found
          processed_count := processed_count
          failed_count := failed_count
          total_refunded_amount := refunded_amount })

/-- Insertion step for `ORDER BY created_at DESC`. -/
def insertByCreatedAtDesc (r : ExchangeRequestRow) :
    List ExchangeRequestRow → List ExchangeRequestRow
  | [] => [r]
  | x :: xs =>
      if x.created_at ≤ r.created_at then r :: x :: xs
      else x :: insertByCreatedAtDesc r xs

/-- `ORDER BY created_at DESC` as an insertion sort. -/
def orderByCreatedAtDesc : List ExchangeRequestRow → List ExchangeRequestRow
  | [] => []
  | x :: xs => insertByCreatedAtDesc x (orderByCreatedAtDesc xs)

/-- `ExchangeService::get_pending_requests` (lines 711-737): the rows with
`owner_id = user_id AND status = 'pending' AND expires_at >
CURRENT_TIMESTAMP`, ordered by `created_at` descending.  The per-row
summary joins of the source are read-only decoration and omitted; the
function returns the selected rows. -/
def get_pending_requests (db : Db) (now : Int) (user_id : Nat) :
    List ExchangeRequestRow :=
  orderByCreatedAtDesc (db.exchange_requests.filter (fun r =>
    r.owner_id == user_id && r.status == .pending && r.expires_at > now))

/-- Total coins in the system: the sum of all user balances plus the sum of
`coin_amount` over the requests whose status is `Pending` (the escrow).
This is the quantity the specification's conservation property declares
invariant. -/
def totalCoins (db : Db) : Int :=
  (db.users.map (fun u => u.coin_balance)).sum +
    ((db.exchange_requests.filter (fun r => r.status == .pending)).map
      (fun r => r.coin_amount)).sum

/-! ## Shared concrete fixture

A two-user world: user 1 (the requester) holds 88 coins after having
escrowed 12 for the pending request 10 on card 5, which user 2 (the owner,
holding 50 coins) created.  The request was created at time 0 and expires
at time 100; the escrow debit is already on the transaction log. -/

/-- The requester, balance 88 (100 before the request). -/
def sampleRequester : UserRow := { id := 1, coin_balance := 88, exchange_count := 0 }

/-- The owner of card 5, balance 50. -/
def sampleOwner : UserRow := { id := 2, coin_balance := 50, exchange_count := 0 }

/-- Card 5 : created by user 2, base price 10, 25 likes, 0 exchanges. -/
def sampleCard : CardRow :=
  { id := 5, creator_id := 2, base_price := 10, like_count := 25,
    exchange_count := 0, is_deleted := false }

/-- Pending request 10 by user 1 for card 5, 12 coins escrowed, expires at
time 100. -/
def sampleRequest : ExchangeRequestRow :=
  { id := 10, requester_id := 1, card_id := 5, owner_id := 2,
    coin_amount := 12, status := .pending, expires_at := 100,
    created_at := 0, updated_at := 0 }

/-- The escrow debit already logged for request 10. -/
def sampleEscrowTxn : CoinTransactionRow :=
  { user_id := 1, amount := -12, reason := .exchangePurchase,
    reference_id := some 10, balance_after := 88 }

/-- The shared fixture database. -/
def sampleDb : Db :=
  { users := [sampleRequester, sampleOwner]
    cards := [sampleCard]
    exchange_requests := [sampleRequest]
    coin_transactions := [sampleEscrowTxn]
    card_collections := []
    exchange_records := [] }

/-- A fresh requester holding 100 coins, before creating any request. -/
def freshRequester : UserRow := { id := 3, coin_balance := 100, exchange_count := 0 }

/-- Fixture for request creation: user 3 (requester, 100 coins) and user 2
(owner of card 5), no requests yet. -/
def createDb : Db :=
  { users := [freshRequester, sampleOwner]
    cards := [sampleCard]
    exchange_requests := []
    coin_transactions := []
    card_collections := []
    exchange_records := [] }

/-- An already-accepted (terminal) request by user 1 for card 5. -/
def acceptedRequest : ExchangeRequestRow :=
  { id := 11, requester_id := 1, card_id := 5, owner_id := 2,
    coin_amount := 12, status := .accepted, expires_at := 100,
    created_at := 0, updated_at := 0 }

/-- Fixture holding the terminal request 11. -/
def terminalDb : Db :=
  { users := [sampleRequester, sampleOwner]
    cards := [sampleCard]
    exchange_requests := [acceptedRequest]
    coin_transactions := []
    card_collections := []
    exchange_records := [] }

/-! ## Helper lemmas about the statement embeddings -/

theorem find?_map_of_pres {α : Type} {f : α → α} {p : α → Bool}
    (hf : ∀ a, p (f a) = p a) (l : List α) :
    (l.map f).find? p = (l.find? p).map f := by
  rw [List.find?_map]
  have hpf : (p ∘ f) = p := funext hf
  rw [hpf]

theorem findUser_updateUserBalance (db : Db) (uid : Nat) (δ : Int) (v : Nat) :
    findUser (updateUserBalance db uid δ) v =
      (findUser db v).map (fun u =>
        if u.id == uid then { u with coin_balance := u.coin_balance + δ } else u) := by
  unfold findUser updateUserBalance
  exact find?_map_of_pres (fun u => by by_cases h : u.id == uid <;> simp [h]) _

theorem findUser_bumpUserExchangeCount (db : Db) (uid : Nat) (v : Nat) :
    findUser (bumpUserExchangeCount db uid) v =
      (findUser db v).map (fun u =>
        if u.id == uid then { u with exchange_count := u.exchange_count + 1 } else u) := by
  unfold findUser bumpUserExchangeCount
  exact find?_map_of_pres (fun u => by by_cases h : u.id == uid <;> simp [h]) _

theorem fetchBalance_updateUserBalance_self (db : Db) (uid : Nat) (δ : Int) :
    fetchBalance (updateUserBalance db uid δ) uid =
      (fetchBalance db uid).map (fun b => b + δ) := by
  unfold fetchBalance
  rw [findUser_updateUserBalance]
  cases h : findUser db uid with
  | none => rfl
  | some u =>
      have hid : u.id = uid := by
        have := List.find?_some h
        simpa using this
      simp [hid]

theorem fetchBalance_updateUserBalance_other (db : Db) (uid : Nat) (δ : Int)
    (v : Nat) (hv : v ≠ uid) :
    fetchBalance (updateUserBalance db uid δ) v = fetchBalance db v := by
  unfold fetchBalance
  rw [findUser_updateUserBalance]
  cases h : findUser db v with
  | none => rfl
  | some u =>
      have hid : u.id = v := by
        have := List.find?_some h
        simpa using this
      have hvne : u.id ≠ uid := by rw [hid]; exact hv
      simp [hvne]

theorem fetchBalance_bumpUserExchangeCount (db : Db) (uid v : Nat) :
    fetchBalance (bumpUserExchangeCount db uid) v = fetchBalance db v := by
  unfold fetchBalance
  rw [findUser_bumpUserExchangeCount]
  cases h : findUser db v with
  | none => rfl
  | some u => by_cases hid : u.id = uid <;> simp [hid]

theorem findRequest_setRequestStatus (db : Db) (exid : Nat)
    (st : ExchangeStatus) (now : Int) (v : Nat) :
    findRequest (setRequestStatus db exid st now) v =
      (findRequest db v).map (fun r =>
        if r.id == exid then { r with status := st, updated_at := now } else r) := by
  unfold findRequest setRequestStatus
  exact find?_map_of_pres (fun r => by by_cases h : r.id == exid <;> simp [h]) _

theorem findUser_isSome_updateUserBalance (db : Db) (uid : Nat) (δ : Int) (v : Nat) :
    (findUser (updateUserBalance db uid δ) v).isSome = (findUser db v).isSome := by
  rw [findUser_updateUserBalance]
  cases findUser db v <;> rfl

theorem countCollection_grantCollection (db : Db) (uid cid : Nat)
    (h : countCollection db uid cid ≤ 1) :
    countCollection (grantCollection db uid cid) uid cid = 1 := by
  unfold grantCollection
  by_cases hany : db.card_collections.any
      (fun c => c.user_id == uid && c.card_id == cid) = true
  · rw [if_pos hany]
    obtain ⟨x, hx, hpx⟩ := List.any_eq_true.mp hany
    have hmem : x ∈ db.card_collections.filter
        (fun c => c.user_id == uid && c.card_id == cid) :=
      List.mem_filter.mpr ⟨hx, hpx⟩
    have hpos : 0 < countCollection db uid cid := by
      unfold countCollection
      exact List.length_pos.mpr (fun hnil => by rw [hnil] at hmem; cases hmem)
    omega
  · rw [if_neg hany]
    have hzero : db.card_collections.filter
        (fun c => c.user_id == uid && c.card_id == cid) = [] := by
      rw [List.filter_eq_nil_iff]
      intro a ha hpa
      exact hany (List.any_eq_true.mpr ⟨a, ha, hpa⟩)
    unfold countCollection
    simp only
    rw [List.filter_append, hzero]
    simp

theorem mem_insertByCreatedAtDesc (r a : ExchangeRequestRow)
    (l : List ExchangeRequestRow) :
    a ∈ insertByCreatedAtDesc r l ↔ a = r ∨ a ∈ l := by
  induction l with
  | nil => simp [insertByCreatedAtDesc]
  | cons x xs ih =>
      unfold insertByCreatedAtDesc
      by_cases h : x.created_at ≤ r.created_at
      · simp [h]
      · simp only [if_neg h, List.mem_cons, ih]
        tauto

theorem mem_orderByCreatedAtDesc (l : List ExchangeRequestRow)
    (a : ExchangeRequestRow) :
    a ∈ orderByCreatedAtDesc l ↔ a ∈ l := by
  induction l with
  | nil => simp [orderByCreatedAtDesc]
  | cons x xs ih =>
      unfold orderByCreatedAtDesc
      rw [mem_insertByCreatedAtDesc, ih]
      simp

theorem pairwise_insertByCreatedAtDesc (r : ExchangeRequestRow)
    (l : List ExchangeRequestRow)
    (h : l.Pairwise (fun a b => b.created_at ≤ a.created_at)) :
    (insertByCreatedAtDesc r l).Pairwise (fun a b => b.created_at ≤ a.created_at) := by
  induction l with
  | nil => simp [insertByCreatedAtDesc]
  | cons x xs ih =>
      rw [List.pairwise_cons] at h
      obtain ⟨hx, hxs⟩ := h
      unfold insertByCreatedAtDesc
      by_cases hle : x.created_at ≤ r.created_at
      · rw [if_pos hle]
        rw [List.pairwise_cons]
        constructor
        · intro b hb
          rcases List.mem_cons.mp hb with hbx | hbxs
          · rw [hbx]; exact hle
          · exact le_trans (hx b hbxs) hle
        · rw [List.pairwise_cons]
          exact ⟨hx, hxs⟩
      · rw [if_neg hle]
        rw [List.pairwise_cons]
        constructor
        · intro b hb
          rcases (mem_insertByCreatedAtDesc r b xs).mp hb with hbr | hbxs
          · rw [hbr]; omega
          · exact hx b hbxs
        · exact ih hxs

theorem pairwise_orderByCreatedAtDesc (l : List ExchangeRequestRow) :
    (orderByCreatedAtDesc l).Pairwise (fun a b => b.created_at ≤ a.created_at) := by
  induction l with
  | nil => exact List.Pairwise.nil
  | cons x xs ih =>
      unfold orderByCreatedAtDesc
      exact pairwise_insertByCreatedAtDesc x _ ih

/-- `expire_single_request` never adds or removes user rows: the
presence of any user is unchanged, whichever branch is taken. -/
theorem expire_single_request_preserves_user (db : Db) (now : Int)
    (q : ExchangeRequestRow) (v : Nat) :
    (findUser (expire_single_request db now q).1 v).isSome =
      (findUser db v).isSome := by
  unfold expire_single_request updateBalanceReturning
  cases hfb : fetchBalance (updateUserBalance db q.requester_id q.coin_amount)
      q.requester_id with
  | none =>
      simp only [hfb]
      exact findUser_isSome_updateUserBalance db q.requester_id q.coin_amount v
  | some nb =>
      simp only [hfb]
      have h1 : findUser (setRequestStatus (appendTxn
          (updateUserBalance db q.requester_id q.coin_amount)
          { user_id := q.requester_id, amount := q.coin_amount,
            reason := .exchangeRefund, reference_id := some q.id,
            balance_after := nb }) q.id .expired now) v =
          findUser (updateUserBalance db q.requester_id q.coin_amount) v := rfl
      rw [h1]
      exact findUser_isSome_updateUserBalance db q.requester_id q.coin_amount v

/-- The success of `expire_single_request` is exactly the existence of the
requester's user row. -/
theorem expire_single_request_ok_iff (db : Db) (now : Int)
    (q : ExchangeRequestRow) :
    isOkE (expire_single_request db now q).2 =
      (findUser db q.requester_id).isSome := by
  have hsome : (fetchBalance (updateUserBalance db q.requester_id q.coin_amount)
      q.requester_id).isSome = (findUser db q.requester_id).isSome := by
    rw [fetchBalance_updateUserBalance_self]
    unfold fetchBalance
    cases findUser db q.requester_id <;> rfl
  cases hfb : fetchBalance (updateUserBalance db q.requester_id q.coin_amount)
      q.requester_id with
  | none =>
      rw [hfb] at hsome
      simp only [expire_single_request, updateBalanceReturning, hfb, ← hsome]
      rfl
  | some nb =>
      rw [hfb] at hsome
      simp only [expire_single_request, updateBalanceReturning, hfb, ← hsome]
      rfl

/-- The refunded amount of a successful `expire_single_request` is the
request's `coin_amount`. -/
theorem expire_single_request_amount (db : Db) (now : Int)
    (q : ExchangeRequestRow) (amt : Int)
    (h : (expire_single_request db now q).2 = .ok amt) :
    amt = q.coin_amount := by
  cases hfb : fetchBalance (updateUserBalance db q.requester_id q.coin_amount)
      q.requester_id with
  | none =>
      simp only [expire_single_request, updateBalanceReturning, hfb] at h
      cases h
  | some nb =>
      simp only [expire_single_request, updateBalanceReturning, hfb] at h
      cases h; rfl

theorem length_filter_bool_split {α : Type} (p : α → Bool) (l : List α) :
    (l.filter p).length + (l.filter (fun a => !p a)).length = l.length := by
  induction l with
  | nil => rfl
  | cons a as ih =>
      cases hpa : p a <;> simp [List.filter_cons, hpa] <;> omega

/-- Accounting of the per-request loop of the reaper: starting from
counters `(p, f, r)`, the loop adds one success per selected request whose
requester row exists, one failure per selected request whose requester row
is missing, and accumulates the `coin_amount` of each success — user-row
existence being invariant across the loop. -/
theorem processExpiredLoop_spec (now : Int) (sel : List ExchangeRequestRow) :
    ∀ (db : Db) (p f : Nat) (r : Int),
      (processExpiredLoop now sel db p f r).2.1 =
          p + (sel.filter (fun q => (findUser db q.requester_id).isSome)).length ∧
      (processExpiredLoop now sel db p f r).2.2.1 =
          f + (sel.filter (fun q => !(findUser db q.requester_id).isSome)).length ∧
      (processExpiredLoop now sel db p f r).2.2.2 =
          r + ((sel.filter (fun q => (findUser db q.requester_id).isSome)).map
            (fun q => q.coin_amount)).sum := by
  induction sel with
  | nil => intro db p f r; simp [processExpiredLoop]
  | cons q rest ih =>
      intro db p f r
      have hpres : ∀ v, (findUser (expire_single_request db now q).1 v).isSome =
          (findUser db v).isSome := expire_single_request_preserves_user db now q
      have hok := expire_single_request_ok_iff db now q
      have hfiltp : rest.filter (fun x =>
            (findUser (expire_single_request db now q).1 x.requester_id).isSome) =
          rest.filter (fun x => (findUser db x.requester_id).isSome) :=
        List.filter_congr (fun x _ => hpres x.requester_id)
      have hfiltf : rest.filter (fun x =>
            !(findUser (expire_single_request db now q).1 x.requester_id).isSome) =
          rest.filter (fun x => !(findUser db x.requester_id).isSome) :=
        List.filter_congr (fun x _ => by rw [hpres x.requester_id])
      cases hstep : expire_single_request db now q with
      | mk db1 res =>
          rw [hstep] at hfiltp hfiltf
          cases res with
          | ok amount =>
              have hamt : amount = q.coin_amount :=
                expire_single_request_amount db now q amount (by rw [hstep])
              have hcond : (findUser db q.requester_id).isSome = true := by
                rw [← hok, hstep]; rfl
              obtain ⟨ih1, ih2, ih3⟩ := ih db1 (p + 1) f (r + amount)
              rw [hfiltp] at ih1 ih3
              rw [hfiltf] at ih2
              refine ⟨?_, ?_, ?_⟩
              · simp only [processExpiredLoop, hstep, ih1,
                  List.filter_cons, hcond]
                simp
                omega
              · simp only [processExpiredLoop, hstep, ih2,
                  List.filter_cons, hcond]
                simp
              · simp only [processExpiredLoop, hstep, ih3,
                  List.filter_cons, hcond]
                simp [hamt]
                omega
          | error e =>
              have hcond : (findUser db q.requester_id).isSome = false := by
                rw [← hok, hstep]; rfl
              obtain ⟨ih1, ih2, ih3⟩ := ih db1 p (f + 1) r
              rw [hfiltp] at ih1 ih3
              rw [hfiltf] at ih2
              refine ⟨?_, ?_, ?_⟩
              · simp only [processExpiredLoop, hstep, ih1,
                  List.filter_cons, hcond]
                simp
              · simp only [processExpiredLoop, hstep, ih2,
                  List.filter_cons, hcond]
                simp
                omega
              · simp only [processExpiredLoop, hstep, ih3,
                  List.filter_cons, hcond]
                simp

theorem fetchBalance_appendTxn (db : Db) (t : CoinTransactionRow) (v : Nat) :
    fetchBalance (appendTxn db t) v = fetchBalance db v := rfl

theorem fetchBalance_appendRecord (db : Db) (r : ExchangeRecordRow) (v : Nat) :
    fetchBalance (appendRecord db r) v = fetchBalance db v := rfl

theorem fetchBalance_setRequestStatus (db : Db) (exid : Nat)
    (st : ExchangeStatus) (now : Int) (v : Nat) :
    fetchBalance (setRequestStatus db exid st now) v = fetchBalance db v := rfl

theorem fetchBalance_bumpCardExchangeCount (db : Db) (cid v : Nat) :
    fetchBalance (bumpCardExchangeCount db cid) v = fetchBalance db v := rfl

theorem fetchBalance_grantCollection (db : Db) (uid cid v : Nat) :
    fetchBalance (grantCollection db uid cid) v = fetchBalance db v := by
  unfold grantCollection
  split <;> rfl

theorem findRequest_appendTxn (db : Db) (t : CoinTransactionRow) (v : Nat) :
    findRequest (appendTxn db t) v = findRequest db v := rfl

theorem findRequest_appendRecord (db : Db) (r : ExchangeRecordRow) (v : Nat) :
    findRequest (appendRecord db r) v = findRequest db v := rfl

theorem findRequest_updateUserBalance (db : Db) (uid : Nat) (δ : Int) (v : Nat) :
    findRequest (updateUserBalance db uid δ) v = findRequest db v := rfl

theorem findRequest_bumpCardExchangeCount (db : Db) (cid v : Nat) :
    findRequest (bumpCardExchangeCount db cid) v = findRequest db v := rfl

theorem findRequest_bumpUserExchangeCount (db : Db) (uid v : Nat) :
    findRequest (bumpUserExchangeCount db uid) v = findRequest db v := rfl

theorem findRequest_grantCollection (db : Db) (uid cid v : Nat) :
    findRequest (grantCollection db uid cid) v = findRequest db v := by
  unfold grantCollection
  split <;> rfl

theorem coinTxns_appendTxn (db : Db) (t : CoinTransactionRow) :
    (appendTxn db t).coin_transactions = db.coin_transactions ++ [t] := rfl

theorem coinTxns_appendRecord (db : Db) (r : ExchangeRecordRow) :
    (appendRecord db r).coin_transactions = db.coin_transactions := rfl

theorem coinTxns_setRequestStatus (db : Db) (exid : Nat)
    (st : ExchangeStatus) (now : Int) :
    (setRequestStatus db exid st now).coin_transactions = db.coin_transactions := rfl

theorem coinTxns_updateUserBalance (db : Db) (uid : Nat) (δ : Int) :
    (updateUserBalance db uid δ).coin_transactions = db.coin_transactions := rfl

theorem coinTxns_bumpCardExchangeCount (db : Db) (cid : Nat) :
    (bumpCardExchangeCount db cid).coin_transactions = db.coin_transactions := rfl

theorem coinTxns_bumpUserExchangeCount (db : Db) (uid : Nat) :
    (bumpUserExchangeCount db uid).coin_transactions = db.coin_transactions := rfl

theorem coinTxns_grantCollection (db : Db) (uid cid : Nat) :
    (grantCollection db uid cid).coin_transactions = db.coin_transactions := by
  unfold grantCollection
  split <;> rfl

theorem records_appendRecord (db : Db) (r : ExchangeRecordRow) :
    (appendRecord db r).exchange_records = db.exchange_records ++ [r] := rfl

theorem records_appendTxn (db : Db) (t : CoinTransactionRow) :
    (appendTxn db t).exchange_records = db.exchange_records := rfl

theorem records_setRequestStatus (db : Db) (exid : Nat)
    (st : ExchangeStatus) (now : Int) :
    (setRequestStatus db exid st now).exchange_records = db.exchange_records := rfl

theorem records_updateUserBalance (db : Db) (uid : Nat) (δ : Int) :
    (updateUserBalance db uid δ).exchange_records = db.exchange_records := rfl

theorem records_bumpCardExchangeCount (db : Db) (cid : Nat) :
    (bumpCardExchangeCount db cid).exchange_records = db.exchange_records := rfl

theorem records_bumpUserExchangeCount (db : Db) (uid : Nat) :
    (bumpUserExchangeCount db uid).exchange_records = db.exchange_records := rfl

theorem records_grantCollection (db : Db) (uid cid : Nat) :
    (grantCollection db uid cid).exchange_records = db.exchange_records := by
  unfold grantCollection
  split <;> rfl

theorem countCollection_appendTxn (db : Db) (t : CoinTransactionRow) (u c : Nat) :
    countCollection (appendTxn db t) u c = countCollection db u c := rfl

theorem countCollection_appendRecord (db : Db) (r : ExchangeRecordRow) (u c : Nat) :
    countCollection (appendRecord db r) u c = countCollection db u c := rfl

theorem countCollection_setRequestStatus (db : Db) (exid : Nat)
    (st : ExchangeStatus) (now : Int) (u c : Nat) :
    countCollection (setRequestStatus db exid st now) u c = countCollection db u c := rfl

theorem countCollection_updateUserBalance (db : Db) (uid : Nat) (δ : Int) (u c : Nat) :
    countCollection (updateUserBalance db uid δ) u c = countCollection db u c := rfl

theorem countCollection_bumpCardExchangeCount (db : Db) (cid u c : Nat) :
    countCollection (bumpCardExchangeCount db cid) u c = countCollection db u c := rfl

theorem countCollection_bumpUserExchangeCount (db : Db) (uid u c : Nat) :
    countCollection (bumpUserExchangeCount db uid) u c = countCollection db u c := rfl

/-- After an unconditional status update, the looked-up request carries the
new status (whenever the request exists beforehand). -/
theorem findRequest_status_after_set (db2 : Db) (exid : Nat)
    (st : ExchangeStatus) (now : Int)
    (h : (findRequest db2 exid).isSome = true) :
    (findRequest (setRequestStatus db2 exid st now) exid).map
      (fun r => r.status) = some st := by
  rw [findRequest_setRequestStatus]
  cases hf : findRequest db2 exid with
  | none => rw [hf] at h; cases h
  | some r =>
      have hid : r.id = exid := by
        have := List.find?_some hf
        simpa using this
      simp [hid]

/-! ## Claim theorems -/

/-- **C9** (Reaper sweep accounting): `process_expired_requests` selects
exactly the requests with status `pending` and `expires_at < now`; its
summary satisfies `total_found` = number selected,
`processed_count + failed_count = total_found`, and
`total_refunded_amount` = the sum of `coin_amount` over the successfully
processed requests (in this model a request fails exactly when its
requester's user row is missing, and one failure does not abort the
loop). -/
theorem process_expired_requests_accounting (db : Db) (now : Int) :
    (process_expired_requests db now).2.total_found =
      (db.exchange_requests.filter (fun r =>
        r.status == .pending && r.expires_at < now)).length ∧
    (process_expired_requests db now).2.processed_count +
        (process_expired_requests db now).2.failed_count =
      (process_expired_requests db now).2.total_found ∧
    (process_expired_requests db now).2.processed_count =
      ((db.exchange_requests.filter (fun r =>
          r.status == .pending && r.expires_at < now)).filter (fun q =>
        (findUser db q.requester_id).isSome)).length ∧
    (process_expired_requests db now).2.total_refunded_amount =
      (((db.exchange_requests.filter (fun r =>
          r.status == .pending && r.expires_at < now)).filter (fun q =>
        (findUser db q.requester_id).isSome)).map (fun q => q.coin_amount)).sum := by
  have hspec := processExpiredLoop_spec now
    (db.exchange_requests.filter (fun r =>
      r.status == .pending && r.expires_at < now)) db 0 0 0
  obtain ⟨h1, h2, h3⟩ := hspec
  have hsplit := length_filter_bool_split
    (fun q => (findUser db q.requester_id).isSome)
    (db.exchange_requests.filter (fun r =>
      r.status == .pending && r.expires_at < now))
  cases hloop : processExpiredLoop now
      (db.exchange_requests.filter (fun r =>
        r.status == .pending && r.expires_at < now)) db 0 0 0 with
  | mk db1 tri =>
      obtain ⟨pc, fc, ra⟩ := tri
      rw [hloop] at h1 h2 h3
      simp only at h1 h2 h3
      simp only [process_expired_requests, hloop]
      refine ⟨by trivial, ?_, ?_, ?_⟩
      · simp only [h1, h2]
        omega
      · simpa using h1
      · simpa using h3

/-- **C6** (refund correctness): applied to a `pending` request,
`reject_exchange` by the owner, `cancel_exchange` by the requester, and the
reaper's `expire_single_request` each succeed, credit the requester's
balance by exactly `coin_amount` — restoring its pre-request value, since
creation debited exactly that amount — append an `ExchangeRefund`
transaction referencing the request, leave the owner's balance unchanged,
and set the status to `rejected`, `cancelled`, or `expired`
respectively. -/
theorem resolution_refund_correct
    (db : Db) (now : Int) (exid : Nat) (row : ExchangeRequestRow)
    (reqBal ownBal : Int)
    (hfind : findRequest db exid = some row)
    (hpend : row.status = .pending)
    (hne : row.requester_id ≠ row.owner_id)
    (hreq : fetchBalance db row.requester_id = some reqBal)
    (hown : fetchBalance db row.owner_id = some ownBal) :
    ((reject_exchange db now exid row.owner_id).2 = .ok () ∧
      fetchBalance (reject_exchange db now exid row.owner_id).1
          row.requester_id = some (reqBal + row.coin_amount) ∧
      fetchBalance (reject_exchange db now exid row.owner_id).1
          row.owner_id = some ownBal ∧
      (findRequest (reject_exchange db now exid row.owner_id).1 exid).map
          (fun r => r.status) = some .rejected ∧
      (reject_exchange db now exid row.owner_id).1.coin_transactions =
        db.coin_transactions ++
          [{ user_id := row.requester_id, amount := row.coin_amount,
             reason := .exchangeRefund, reference_id := some exid,
             balance_after := reqBal + row.coin_amount }]) ∧
    ((cancel_exchange db now exid row.requester_id).2 = .ok () ∧
      fetchBalance (cancel_exchange db now exid row.requester_id).1
          row.requester_id = some (reqBal + row.coin_amount) ∧
      fetchBalance (cancel_exchange db now exid row.requester_id).1
          row.owner_id = some ownBal ∧
      (findRequest (cancel_exchange db now exid row.requester_id).1 exid).map
          (fun r => r.status) = some .cancelled ∧
      (cancel_exchange db now exid row.requester_id).1.coin_transactions =
        db.coin_transactions ++
          [{ user_id := row.requester_id, amount := row.coin_amount,
             reason := .exchangeRefund, reference_id := some exid,
             balance_after := reqBal + row.coin_amount }]) ∧
    ((expire_single_request db now row).2 = .ok row.coin_amount ∧
      fetchBalance (expire_single_request db now row).1
          row.requester_id = some (reqBal + row.coin_amount) ∧
      fetchBalance (expire_single_request db now row).1
          row.owner_id = some ownBal ∧
      (findRequest (expire_single_request db now row).1 exid).map
          (fun r => r.status) = some .expired ∧
      (expire_single_request db now row).1.coin_transactions =
        db.coin_transactions ++
          [{ user_id := row.requester_id, amount := row.coin_amount,
             reason := .exchangeRefund, reference_id := some row.id,
             balance_after := reqBal + row.coin_amount }]) := by
  have hrid : row.id = exid := by
    have := List.find?_some hfind
    simpa using this
  have hub : updateBalanceReturning db row.requester_id row.coin_amount =
      (updateUserBalance db row.requester_id row.coin_amount,
        some (reqBal + row.coin_amount)) := by
    simp only [updateBalanceReturning]
    rw [fetchBalance_updateUserBalance_self, hreq]
    rfl
  have hself : fetchBalance (updateUserBalance db row.requester_id
      row.coin_amount) row.requester_id = some (reqBal + row.coin_amount) := by
    rw [fetchBalance_updateUserBalance_self, hreq]
    rfl
  have hother : fetchBalance (updateUserBalance db row.requester_id
      row.coin_amount) row.owner_id = some ownBal := by
    rw [fetchBalance_updateUserBalance_other db row.requester_id
      row.coin_amount row.owner_id (Ne.symm hne), hown]
  have hfsome : ∀ db2 : Db, findRequest db2 exid = some row →
      (findRequest db2 exid).isSome = true := by
    intro db2 h2
    rw [h2]
    rfl
  have hvalR : reject_validate db exid row.owner_id = .ok row := by
    simp [reject_validate, hfind, hpend, ExchangeStatus.can_reject]
  have hvalC : cancel_validate db exid row.requester_id = .ok row := by
    simp [cancel_validate, hfind, hpend, ExchangeStatus.can_cancel]
  refine ⟨⟨?_, ?_, ?_, ?_, ?_⟩, ⟨?_, ?_, ?_, ?_, ?_⟩, ⟨?_, ?_, ?_, ?_, ?_⟩⟩
  · simp only [reject_exchange, hvalR, reject_commit, hub]
  · simp only [reject_exchange, hvalR, reject_commit, hub,
      fetchBalance_setRequestStatus, fetchBalance_appendTxn]
    exact hself
  · simp only [reject_exchange, hvalR, reject_commit, hub,
      fetchBalance_setRequestStatus, fetchBalance_appendTxn]
    exact hother
  · simp only [reject_exchange, hvalR, reject_commit, hub]
    exact findRequest_status_after_set _ exid .rejected now
      (hfsome _ (by rw [findRequest_appendTxn, findRequest_updateUserBalance, hfind]))
  · simp only [reject_exchange, hvalR, reject_commit, hub,
      coinTxns_setRequestStatus, coinTxns_appendTxn, coinTxns_updateUserBalance]
  · simp only [cancel_exchange, hvalC, cancel_commit, hub]
  · simp only [cancel_exchange, hvalC, cancel_commit, hub,
      fetchBalance_setRequestStatus, fetchBalance_appendTxn]
    exact hself
  · simp only [cancel_exchange, hvalC, cancel_commit, hub,
      fetchBalance_setRequestStatus, fetchBalance_appendTxn]
    exact hother
  · simp only [cancel_exchange, hvalC, cancel_commit, hub]
    exact findRequest_status_after_set _ exid .cancelled now
      (hfsome _ (by rw [findRequest_appendTxn, findRequest_updateUserBalance, hfind]))
  · simp only [cancel_exchange, hvalC, cancel_commit, hub,
      coinTxns_setRequestStatus, coinTxns_appendTxn, coinTxns_updateUserBalance]
  · simp only [expire_single_request, hub]
  · simp only [expire_single_request, hub,
      fetchBalance_setRequestStatus, fetchBalance_appendTxn]
    exact hself
  · simp only [expire_single_request, hub,
      fetchBalance_setRequestStatus, fetchBalance_appendTxn]
    exact hother
  · simp only [expire_single_request, hub, hrid]
    exact findRequest_status_after_set _ exid .expired now
      (hfsome _ (by rw [findRequest_appendTxn, findRequest_updateUserBalance, hfind]))
  · simp only [expire_single_request, hub,
      coinTxns_setRequestStatus, coinTxns_appendTxn, coinTxns_updateUserBalance]

/-- **C7** (accept correctness): a successful `accept_exchange` on a
pending, non-expired request by the card owner credits the owner's balance
by exactly `coin_amount` with a `CardExchanged` transaction referencing the
request, leaves the requester's balance unchanged, grants the card to the
requester's collection exactly once (the insert is idempotent: the row
count for the pair becomes 1 whenever it was at most 1), sets the status
to `accepted`, and records an `ExchangeRecord` from the owner to the
requester. -/
theorem accept_exchange_correct
    (db : Db) (now : Int) (exid : Nat) (row : ExchangeRequestRow)
    (reqBal ownBal : Int)
    (hfind : findRequest db exid = some row)
    (hpend : row.status = .pending)
    (hexp : row.is_expired now = false)
    (hne : row.requester_id ≠ row.owner_id)
    (hreq : fetchBalance db row.requester_id = some reqBal)
    (hown : fetchBalance db row.owner_id = some ownBal)
    (hcoll : countCollection db row.requester_id row.card_id ≤ 1) :
    (accept_exchange db now exid row.owner_id).2 =
      .ok { exchange_id := exid, card_id := row.card_id,
            requester_new_balance := reqBal,
            owner_new_balance := ownBal + row.coin_amount } ∧
    fetchBalance (accept_exchange db now exid row.owner_id).1 row.owner_id =
      some (ownBal + row.coin_amount) ∧
    fetchBalance (accept_exchange db now exid row.owner_id).1 row.requester_id =
      some reqBal ∧
    (accept_exchange db now exid row.owner_id).1.coin_transactions =
      db.coin_transactions ++
        [{ user_id := row.owner_id, amount := row.coin_amount,
           reason := .cardExchanged, reference_id := some exid,
           balance_after := ownBal + row.coin_amount }] ∧
    countCollection (accept_exchange db now exid row.owner_id).1
      row.requester_id row.card_id = 1 ∧
    (findRequest (accept_exchange db now exid row.owner_id).1 exid).map
      (fun r => r.status) = some .accepted ∧
    (accept_exchange db now exid row.owner_id).1.exchange_records =
      db.exchange_records ++
        [{ exchange_request_id := exid, card_id := row.card_id,
           from_user_id := row.owner_id, to_user_id := row.requester_id,
           coin_amount := row.coin_amount, completed_at := now }] := by
  have hub : updateBalanceReturning db row.owner_id row.coin_amount =
      (updateUserBalance db row.owner_id row.coin_amount,
        some (ownBal + row.coin_amount)) := by
    simp only [updateBalanceReturning]
    rw [fetchBalance_updateUserBalance_self, hown]
    rfl
  have hfbReq : fetchBalance (updateUserBalance db row.owner_id
      row.coin_amount) row.requester_id = some reqBal := by
    rw [fetchBalance_updateUserBalance_other db row.owner_id
      row.coin_amount row.requester_id hne, hreq]
  have hfbOwn : fetchBalance (updateUserBalance db row.owner_id
      row.coin_amount) row.owner_id = some (ownBal + row.coin_amount) := by
    rw [fetchBalance_updateUserBalance_self, hown]
    rfl
  refine ⟨?_, ?_, ?_, ?_, ?_, ?_, ?_⟩
  · simp only [accept_exchange, hfind, bne_self_eq_false, Bool.false_eq_true,
      if_false, ExchangeStatus.can_accept, hpend, hexp, hub, beq_self_eq_true, Bool.not_true,
      fetchBalance_bumpUserExchangeCount, fetchBalance_bumpCardExchangeCount,
      fetchBalance_appendRecord, fetchBalance_setRequestStatus,
      fetchBalance_grantCollection, fetchBalance_appendTxn, hfbReq]
  · simp only [accept_exchange, hfind, bne_self_eq_false, Bool.false_eq_true,
      if_false, ExchangeStatus.can_accept, hpend, hexp, hub, beq_self_eq_true, Bool.not_true,
      fetchBalance_bumpUserExchangeCount, fetchBalance_bumpCardExchangeCount,
      fetchBalance_appendRecord, fetchBalance_setRequestStatus,
      fetchBalance_grantCollection, fetchBalance_appendTxn, hfbReq]
    exact hfbOwn
  · simp only [accept_exchange, hfind, bne_self_eq_false, Bool.false_eq_true,
      if_false, ExchangeStatus.can_accept, hpend, hexp, hub, beq_self_eq_true, Bool.not_true,
      fetchBalance_bumpUserExchangeCount, fetchBalance_bumpCardExchangeCount,
      fetchBalance_appendRecord, fetchBalance_setRequestStatus,
      fetchBalance_grantCollection, fetchBalance_appendTxn, hfbReq]
  · simp only [accept_exchange, hfind, bne_self_eq_false, Bool.false_eq_true,
      if_false, ExchangeStatus.can_accept, hpend, hexp, hub, beq_self_eq_true, Bool.not_true,
      fetchBalance_bumpUserExchangeCount, fetchBalance_bumpCardExchangeCount,
      fetchBalance_appendRecord, fetchBalance_setRequestStatus,
      fetchBalance_grantCollection, fetchBalance_appendTxn, hfbReq,
      coinTxns_bumpUserExchangeCount, coinTxns_bumpCardExchangeCount,
      coinTxns_appendRecord, coinTxns_setRequestStatus,
      coinTxns_grantCollection, coinTxns_appendTxn, coinTxns_updateUserBalance]
  · simp only [accept_exchange, hfind, bne_self_eq_false, Bool.false_eq_true,
      if_false, ExchangeStatus.can_accept, hpend, hexp, hub, beq_self_eq_true, Bool.not_true,
      fetchBalance_bumpUserExchangeCount, fetchBalance_bumpCardExchangeCount,
      fetchBalance_appendRecord, fetchBalance_setRequestStatus,
      fetchBalance_grantCollection, fetchBalance_appendTxn, hfbReq,
      countCollection_bumpUserExchangeCount, countCollection_bumpCardExchangeCount,
      countCollection_appendRecord, countCollection_setRequestStatus]
    exact countCollection_grantCollection _ _ _ hcoll
  · simp only [accept_exchange, hfind, bne_self_eq_false, Bool.false_eq_true,
      if_false, ExchangeStatus.can_accept, hpend, hexp, hub, beq_self_eq_true, Bool.not_true,
      fetchBalance_bumpUserExchangeCount, fetchBalance_bumpCardExchangeCount,
      fetchBalance_appendRecord, fetchBalance_setRequestStatus,
      fetchBalance_grantCollection, fetchBalance_appendTxn, hfbReq,
      findRequest_bumpUserExchangeCount, findRequest_bumpCardExchangeCount,
      findRequest_appendRecord]
    exact findRequest_status_after_set _ exid .accepted now
      (by rw [findRequest_grantCollection, findRequest_appendTxn,
        findRequest_updateUserBalance, hfind]; rfl)
  · simp only [accept_exchange, hfind, bne_self_eq_false, Bool.false_eq_true,
      if_false, ExchangeStatus.can_accept, hpend, hexp, hub, beq_self_eq_true, Bool.not_true,
      fetchBalance_bumpUserExchangeCount, fetchBalance_bumpCardExchangeCount,
      fetchBalance_appendRecord, fetchBalance_setRequestStatus,
      fetchBalance_grantCollection, fetchBalance_appendTxn, hfbReq,
      records_bumpUserExchangeCount, records_bumpCardExchangeCount,
      records_appendRecord, records_setRequestStatus,
      records_grantCollection, records_appendTxn, records_updateUserBalance]

/-- **C8** (terminal immutability): on a request whose status is terminal
(`accepted`, `rejected`, `cancelled`, or `expired`), every invocation of
`accept_exchange`, `reject_exchange`, or `cancel_exchange` — by any
caller — fails and leaves the database completely unchanged (no balance,
status, collection, or ledger mutation); when the caller is the authorized
party, the reported error is the invalid-state error naming the current
status.  Together with the operations' definitions this gives that status
transitions are performed only out of `pending`. -/
theorem terminal_status_immutable
    (db : Db) (now : Int) (exid caller : Nat) (row : ExchangeRequestRow)
    (hfind : findRequest db exid = some row)
    (hterm : row.status.is_terminal = true) :
    ((accept_exchange db now exid caller).1 = db ∧
      isOkE (accept_exchange db now exid caller).2 = false) ∧
    ((reject_exchange db now exid caller).1 = db ∧
      isOkE (reject_exchange db now exid caller).2 = false) ∧
    ((cancel_exchange db now exid caller).1 = db ∧
      isOkE (cancel_exchange db now exid caller).2 = false) ∧
    (caller = row.owner_id →
      (accept_exchange db now exid caller).2 = .error (.businessLogic
        ("Cannot accept exchange request with status: " ++ row.status.to_db_str))) ∧
    (caller = row.owner_id →
      (reject_exchange db now exid caller).2 = .error (.businessLogic
        ("Cannot reject exchange request with status: " ++ row.status.to_db_str))) ∧
    (caller = row.requester_id →
      (cancel_exchange db now exid caller).2 = .error (.businessLogic
        ("Cannot cancel exchange request with status: " ++ row.status.to_db_str))) := by
  have hnp : (row.status == ExchangeStatus.pending) = false := by
    cases hst : row.status <;> rw [hst] at hterm <;>
      simp_all [ExchangeStatus.is_terminal]
  refine ⟨?_, ?_, ?_, ?_, ?_, ?_⟩
  · by_cases hoc : (row.owner_id != caller) = true
    · constructor
      · simp [accept_exchange, hfind, hoc]
      · simp [accept_exchange, hfind, hoc, isOkE]
    · constructor
      · simp [accept_exchange, hfind, hoc, ExchangeStatus.can_accept, hnp]
      · simp [accept_exchange, hfind, hoc, ExchangeStatus.can_accept, hnp, isOkE]
  · by_cases hoc : (row.owner_id != caller) = true
    · constructor
      · simp [reject_exchange, reject_validate, hfind, hoc]
      · simp [reject_exchange, reject_validate, hfind, hoc, isOkE]
    · constructor
      · simp [reject_exchange, reject_validate, hfind, hoc,
          ExchangeStatus.can_reject, hnp]
      · simp [reject_exchange, reject_validate, hfind, hoc,
          ExchangeStatus.can_reject, hnp, isOkE]
  · by_cases hrc : (row.requester_id != caller) = true
    · constructor
      · simp [cancel_exchange, cancel_validate, hfind, hrc]
      · simp [cancel_exchange, cancel_validate, hfind, hrc, isOkE]
    · constructor
      · simp [cancel_exchange, cancel_validate, hfind, hrc,
          ExchangeStatus.can_cancel, hnp]
      · simp [cancel_exchange, cancel_validate, hfind, hrc,
          ExchangeStatus.can_cancel, hnp, isOkE]
  · intro hc
    subst hc
    simp [accept_exchange, hfind, bne_self_eq_false, ExchangeStatus.can_accept, hnp]
  · intro hc
    subst hc
    simp [reject_exchange, reject_validate, hfind, bne_self_eq_false,
      ExchangeStatus.can_reject, hnp]
  · intro hc
    subst hc
    simp [cancel_exchange, cancel_validate, hfind, bne_self_eq_false,
      ExchangeStatus.can_cancel, hnp]

/-- **C1** (coin conservation, evaluated at the failing input): in the
fixture world, total coins — the sum of all balances plus the escrow of
pending requests — is 150.  Calling `accept_exchange` on the expired
pending request (owner 2, time 200 > `expires_at` = 100) fails, yet the
total drops to 138: the lazy-expiry path removes the request from escrow
without refunding anyone, destroying the 12 escrowed coins. -/
theorem accept_lazy_expiry_destroys_coins :
    totalCoins sampleDb = 150 ∧
    isOkE (accept_exchange sampleDb 200 10 2).2 = false ∧
    totalCoins (accept_exchange sampleDb 200 10 2).1 = 138 := by
  decide

/-- **C2** (lazy expiry on Accept, evaluated at the failing input): when
the owner accepts the expired pending request, the call does fail with the
invalid-state error reporting expiry and the status does become
`expired` — but contrary to the claim there is no Expire effect: the
requester's balance stays 88 (it is not refunded to 100) and no
`ExchangeRefund` transaction is appended. -/
theorem accept_lazy_expiry_performs_no_refund :
    (accept_exchange sampleDb 200 10 2).2 =
      .error (.businessLogic "Exchange request has expired") ∧
    (findRequest (accept_exchange sampleDb 200 10 2).1 10).map
      (fun r => r.status) = some .expired ∧
    fetchBalance (accept_exchange sampleDb 200 10 2).1 1 = some 88 ∧
    (accept_exchange sampleDb 200 10 2).1.coin_transactions =
      sampleDb.coin_transactions := by
  decide

/-- **C3** (exactly-once resolution, refuted by an interleaving): the
source runs each SQL statement directly against the pool with no
enclosing transaction, and its status update is `UPDATE exchange_requests
SET status = ... WHERE id = $1` — not conditioned on the status still
being `pending` — so the schedule "Reject reads and validates; Cancel
reads and validates; Reject writes; Cancel writes" is realizable.  Both
invocations validate successfully against the same pending request, both
write phases complete with `ok`, and the requester is refunded twice
(balance 88 → 112 although only 12 coins were escrowed): two successes,
not one success and one invalid-state failure. -/
theorem concurrent_reject_cancel_double_success :
    reject_validate sampleDb 10 2 = .ok sampleRequest ∧
    cancel_validate sampleDb 10 1 = .ok sampleRequest ∧
    (reject_commit sampleDb 50 10 sampleRequest).2 = .ok () ∧
    (cancel_commit (reject_commit sampleDb 50 10 sampleRequest).1
      50 10 sampleRequest).2 = .ok () ∧
    fetchBalance (cancel_commit (reject_commit sampleDb 50 10 sampleRequest).1
      50 10 sampleRequest).1 1 = some 112 := by
  decide

/-- **C10** (pending list): `get_pending_requests` returns exactly the
requests addressed to the owner whose status is `pending` and whose
`expires_at` is strictly in the future, ordered by `created_at`
descending.  In particular a request still stored as `pending` but past
its `expires_at` is omitted even before any reaper run or lazy expiry
changes its status. -/
theorem get_pending_requests_spec (db : Db) (now : Int) (user_id : Nat) :
    (∀ r, r ∈ get_pending_requests db now user_id ↔
      (r ∈ db.exchange_requests ∧ r.owner_id = user_id ∧
        r.status = .pending ∧ now < r.expires_at)) ∧
    (get_pending_requests db now user_id).Pairwise
      (fun a b => b.created_at ≤ a.created_at) := by
  constructor
  · intro r
    unfold get_pending_requests
    rw [mem_orderByCreatedAtDesc, List.mem_filter]
    simp [and_assoc]
  · unfold get_pending_requests
    exact pairwise_orderByCreatedAtDesc _

/-- **C4** (escrow correctness at creation): after a successful
`create_exchange_request`, the requester's balance equals its prior value
minus the request's `coin_amount`, the created request is `pending`, and
its `coin_amount` is `base_price + floor(like_count / 10) +
exchange_count * 2` computed from the card's current counters (floor
division agreeing with the source's `i32` division because `like_count`
is nonnegative). -/
theorem create_exchange_request_escrow_correct
    (cfg : Config) (db : Db) (now : Int)
    (requester_id card_id exchange_id : Nat)
    (card : CardRow) (bal0 : Int) (db' : Db) (row : ExchangeRequestRow)
    (hcard : findCardLive db card_id = some card)
    (hlike : 0 ≤ card.like_count)
    (hbal : fetchBalance db requester_id = some bal0)
    (h : create_exchange_request cfg db now requester_id card_id exchange_id =
      (db', .ok row)) :
    fetchBalance db' requester_id = some (bal0 - row.coin_amount) ∧
    row.status = .pending ∧
    row.coin_amount =
      card.base_price + Int.fdiv card.like_count 10 + card.exchange_count * 2 := by
  simp only [create_exchange_request, calculate_exchange_price, hcard] at h
  split at h
  · simp at h
  split at h
  · simp at h
  split at h
  · simp at h
  simp only [hbal] at h
  split at h
  · simp at h
  have hub : updateBalanceReturning db requester_id
      (-(ExchangePriceInfo.new card_id card.base_price card.like_count
          card.exchange_count).final_price) =
      (updateUserBalance db requester_id
          (-(ExchangePriceInfo.new card_id card.base_price card.like_count
            card.exchange_count).final_price),
        some (bal0 + -(ExchangePriceInfo.new card_id card.base_price
          card.like_count card.exchange_count).final_price)) := by
    simp only [updateBalanceReturning]
    rw [fetchBalance_updateUserBalance_self, hbal]
    rfl
  rw [hub] at h
  simp only [Prod.mk.injEq, Except.ok.injEq] at h
  obtain ⟨hdb, hrow⟩ := h
  subst hdb
  subst hrow
  refine ⟨?_, rfl, ?_⟩
  · have hstep : fetchBalance (updateUserBalance db requester_id
        (-(ExchangePriceInfo.new card_id card.base_price card.like_count
          card.exchange_count).final_price)) requester_id =
        some (bal0 + -(ExchangePriceInfo.new card_id card.base_price
          card.like_count card.exchange_count).final_price) := by
      rw [fetchBalance_updateUserBalance_self, hbal]
      rfl
    exact hstep.trans (by rw [← sub_eq_add_neg])
  · show (ExchangePriceInfo.new card_id card.base_price card.like_count
        card.exchange_count).final_price = _
    simp only [ExchangePriceInfo.new]
    rw [Int.tdiv_eq_ediv hlike (by norm_num),
      Int.fdiv_eq_ediv card.like_count (by norm_num)]
    ring

/-- **C5** (creation-failure atomicity): every failing invocation of
`create_exchange_request` — card not found, self-exchange, duplicate
pending request, card already collected, insufficient balance, or a
store-level error — returns the database unchanged: no balance change, no
coin transaction, no request row. -/
theorem create_exchange_request_failure_atomic
    (cfg : Config) (db : Db) (now : Int)
    (requester_id card_id exchange_id : Nat) (e : AppError) (db' : Db)
    (h : create_exchange_request cfg db now requester_id card_id exchange_id =
      (db', .error e)) :
    db' = db := by
  cases hcard : findCardLive db card_id with
  | none =>
      simp only [create_exchange_request, hcard, Prod.mk.injEq] at h
      exact h.1.symm
  | some card =>
      simp only [create_exchange_request, calculate_exchange_price, hcard] at h
      split at h
      · simp only [Prod.mk.injEq] at h; exact h.1.symm
      split at h
      · simp only [Prod.mk.injEq] at h; exact h.1.symm
      split at h
      · simp only [Prod.mk.injEq] at h; exact h.1.symm
      cases hfb : fetchBalance db requester_id with
      | none =>
          simp only [hfb, Prod.mk.injEq] at h
          exact h.1.symm
      | some requester_balance =>
          simp only [hfb] at h
          split at h
          · simp only [Prod.mk.injEq] at h; exact h.1.symm
          have hub : updateBalanceReturning db requester_id
              (-(ExchangePriceInfo.new card_id card.base_price card.like_count
                  card.exchange_count).final_price) =
              (updateUserBalance db requester_id
                  (-(ExchangePriceInfo.new card_id card.base_price
                    card.like_count card.exchange_count).final_price),
                some (requester_balance +
                  -(ExchangePriceInfo.new card_id card.base_price
                    card.like_count card.exchange_count).final_price)) := by
            simp only [updateBalanceReturning]
            rw [fetchBalance_updateUserBalance_self, hfb]
            rfl
          rw [hub] at h
          simp at h

/-- Witness for the escrow-correctness theorem: user 3 with 100 coins
requests card 5 (base 10, 25 likes, 0 exchanges); the price is 12, the
balance drops to 88, and the request is pending. -/
theorem create_exchange_request_escrow_correct_witness :
    findCardLive createDb 5 = some sampleCard ∧
    (0 : Int) ≤ sampleCard.like_count ∧
    fetchBalance createDb 3 = some 100 ∧
    (fetchBalance (create_exchange_request ⟨72⟩ createDb 0 3 5 20).1 3 =
        some (100 - 12) ∧
      ExchangeStatus.pending = ExchangeStatus.pending ∧
      (12 : Int) = sampleCard.base_price + Int.fdiv sampleCard.like_count 10 +
        sampleCard.exchange_count * 2) :=
  ⟨rfl, by decide, rfl,
    create_exchange_request_escrow_correct ⟨72⟩ createDb 0 3 5 20 sampleCard 100
      (create_exchange_request ⟨72⟩ createDb 0 3 5 20).1
      { id := 20, requester_id := 3, card_id := 5, owner_id := 2,
        coin_amount := 12, status := .pending, expires_at := 72,
        created_at := 0, updated_at := 0 }
      rfl (by decide) rfl (by decide)⟩

/-- Witness for the creation-failure-atomicity theorem: the owner (user 2)
attempting to exchange their own card fails and the database is returned
unchanged. -/
theorem create_exchange_request_failure_atomic_witness :
    (create_exchange_request ⟨72⟩ createDb 0 2 5 21).2 =
      .error (.businessLogic "Cannot exchange your own card") ∧
    (create_exchange_request ⟨72⟩ createDb 0 2 5 21).1 = createDb :=
  ⟨by decide,
    create_exchange_request_failure_atomic ⟨72⟩ createDb 0 2 5 21
      (.businessLogic "Cannot exchange your own card")
      (create_exchange_request ⟨72⟩ createDb 0 2 5 21).1 (by decide)⟩

/-- Witness for the refund-correctness theorem: on the pending fixture
request, reject (owner 2), cancel (requester 1) and the reaper's expire
each succeed. -/
theorem resolution_refund_correct_witness :
    findRequest sampleDb 10 = some sampleRequest ∧
    sampleRequest.status = .pending ∧
    (reject_exchange sampleDb 50 10 2).2 = .ok () ∧
    (cancel_exchange sampleDb 50 10 1).2 = .ok () ∧
    (expire_single_request sampleDb 50 sampleRequest).2 = .ok 12 :=
  ⟨rfl, rfl,
    (resolution_refund_correct sampleDb 50 10 sampleRequest 88 50 rfl rfl
      (by decide) rfl rfl).1.1,
    (resolution_refund_correct sampleDb 50 10 sampleRequest 88 50 rfl rfl
      (by decide) rfl rfl).2.1.1,
    (resolution_refund_correct sampleDb 50 10 sampleRequest 88 50 rfl rfl
      (by decide) rfl rfl).2.2.1⟩

/-- Witness for the accept-correctness theorem: owner 2 accepts the pending
fixture request at time 50; the owner's balance becomes 62 and the
requester holds the card exactly once. -/
theorem accept_exchange_correct_witness :
    findRequest sampleDb 10 = some sampleRequest ∧
    sampleRequest.is_expired 50 = false ∧
    (accept_exchange sampleDb 50 10 2).2 =
      .ok { exchange_id := 10, card_id := 5, requester_new_balance := 88,
            owner_new_balance := 62 } ∧
    fetchBalance (accept_exchange sampleDb 50 10 2).1 2 = some 62 ∧
    countCollection (accept_exchange sampleDb 50 10 2).1 1 5 = 1 :=
  ⟨rfl, by decide,
    (accept_exchange_correct sampleDb 50 10 sampleRequest 88 50 rfl rfl
      (by decide) (by decide) rfl rfl (by decide)).1,
    (accept_exchange_correct sampleDb 50 10 sampleRequest 88 50 rfl rfl
      (by decide) (by decide) rfl rfl (by decide)).2.1,
    (accept_exchange_correct sampleDb 50 10 sampleRequest 88 50 rfl rfl
      (by decide) (by decide) rfl rfl (by decide)).2.2.2.2.1⟩

/-- Witness for the terminal-immutability theorem: on the accepted fixture
request, accept by the owner and cancel by the requester both fail and
leave the database unchanged. -/
theorem terminal_status_immutable_witness :
    acceptedRequest.status.is_terminal = true ∧
    (accept_exchange terminalDb 200 11 2).1 = terminalDb ∧
    (accept_exchange terminalDb 200 11 2).2 = .error (.businessLogic
      "Cannot accept exchange request with status: accepted") ∧
    (cancel_exchange terminalDb 200 11 1).1 = terminalDb :=
  ⟨by decide,
    (terminal_status_immutable terminalDb 200 11 2 acceptedRequest rfl
      (by decide)).1.1,
    (terminal_status_immutable terminalDb 200 11 2 acceptedRequest rfl
      (by decide)).2.2.2.1 rfl,
    (terminal_status_immutable terminalDb 200 11 1 acceptedRequest rfl
      (by decide)).2.2.1.1⟩

end LifeCard
